import Mathlib

/-!
Shallow embedding of the `mongoose` Go package (files `mon.go` and
`config.go`): a thin generic wrapper over the MongoDB Go driver.

The MongoDB driver itself is an external collaborator, so driver calls are
modelled as an abstract interface (`DriverCollection`, `IndexDriver`,
`MongoDriver`): the wrapper operations are embedded faithfully from the Go
source on top of that interface.  Pure driver helpers that the source relies
on (`primitive.ObjectIDFromHex`) are embedded concretely from the driver's
published behaviour.  Each wrapper operation returns, besides its Go result,
an `OpLog` recording the observable effects that the claims speak about:
the timeout of the context the operation allocated, whether its cancel
function ran, and the driver error values it printed.
-/

namespace Mongoose

/-- A Go `error` value as seen by a caller of this package: either an error
value produced by the driver and returned as-is, or a fresh error created by
`errors.New` with a fixed message. `ε` is the abstract type of driver-level
error values. -/
inductive GoError (ε : Type) where
  | driver : ε → GoError ε
  | errorsNew : String → GoError ε
deriving DecidableEq

/-- Whether a returned Go error is (the unmodified) underlying driver error. -/
def GoError.isDriver {ε : Type} : GoError ε → Bool
  | .driver _ => true
  | .errorsNew _ => false

/-- A 12-byte MongoDB ObjectID (`primitive.ObjectID`), bytes as naturals. -/
structure ObjectID where
  bytes : List Nat
deriving DecidableEq

/-- The zero-value ObjectID (`primitive.NilObjectID`): twelve zero bytes. -/
def NilObjectID : ObjectID := ⟨List.replicate 12 0⟩

/-- Value of one hex digit, as in Go `encoding/hex` (`0-9`, `a-f`, `A-F`). -/
def hexDigitVal (c : Char) : Option Nat :=
  if '0' ≤ c ∧ c ≤ '9' then some (c.toNat - '0'.toNat)
  else if 'a' ≤ c ∧ c ≤ 'f' then some (c.toNat - 'a'.toNat + 10)
  else if 'A' ≤ c ∧ c ≤ 'F' then some (c.toNat - 'A'.toNat + 10)
  else none

/-- Go `hex.DecodeString` on a character list: decode consecutive pairs of
hex digits into bytes; fails on a non-hex digit or an odd length. -/
def hexDecodePairs : List Char → Option (List Nat)
  | [] => some []
  | [_] => none
  | c1 :: c2 :: cs =>
    match hexDigitVal c1, hexDigitVal c2, hexDecodePairs cs with
    | some h, some l, some rest => some ((16 * h + l) :: rest)
    | _, _, _ => none

/-- The driver's ObjectID parse errors (`primitive.ErrInvalidHex` for a
wrong length, the hex package's error for a bad digit). -/
inductive OidErr where
  | invalidHex : OidErr
  | hexDecodeErr : OidErr
deriving DecidableEq

/-- Embedding of the driver helper `primitive.ObjectIDFromHex`: a string of
length other than 24 yields `(NilObjectID, ErrInvalidHex)`; a hex decode
failure yields `(NilObjectID, err)`; otherwise the 12 decoded bytes. -/
def ObjectIDFromHex (s : String) : ObjectID × Option OidErr :=
  if s.length ≠ 24 then (NilObjectID, some OidErr.invalidHex)
  else
    match hexDecodePairs s.toList with
    | none => (NilObjectID, some OidErr.hexDecodeErr)
    | some bs => (⟨bs⟩, none)

/-- Embeds `mon.go` `ObjId`: parse the hex string, discarding the error
(`o, _ := primitive.ObjectIDFromHex(s); return o`). -/
def ObjId (s : String) : ObjectID := (ObjectIDFromHex s).1

/-- BSON values as constructed and passed around by this package:
`bson.M` map literals (insertion-ordered key/value list), `bson.D` ordered
documents, strings, ObjectIDs, integers, arrays. -/
inductive BVal where
  | objectId : ObjectID → BVal
  | str : String → BVal
  | int : Int → BVal
  | m : List (String × BVal) → BVal
  | d : List (String × BVal) → BVal
  | arr : List BVal → BVal

/-- A Go `context.Context` as this package uses it: carries only its
timeout in seconds. -/
structure Context where
  timeoutSeconds : Nat
deriving DecidableEq

/-- Embeds `mon.go` `GetContext`: a fresh context with a 10-second timeout (the
cancel function is modelled by the `cancelled` flag of the `OpLog`). -/
def GetContext : Context := ⟨10⟩

/-- Observable effects of one wrapper operation: the timeout of the context
it allocated, whether its deferred cancel ran on return, and the driver
error values it printed via `fmt.Println` / `log.Println`. -/
structure OpLog (ε : Type) where
  ctxTimeout : Nat
  cancelled : Bool
  printed : List ε
deriving DecidableEq

/-- The `FindOneAndUpdate` driver options this package could pass (it passes
none): an optional `ReturnDocument` setting. -/
inductive ReturnDocument where
  | before : ReturnDocument
  | after : ReturnDocument
deriving DecidableEq

/-- One `options.FindOneAndUpdate()` value: only the return-document knob is
relevant here; `none` means the knob was not set. -/
structure FindOneAndUpdateOptions where
  returnDocument : Option ReturnDocument
deriving DecidableEq

/-- Abstract interface to the external driver's `mongo.Collection`, as the
wrapper uses it. Each method receives the context the wrapper passes.
Decoding methods take the current value behind the caller's output pointer
and return its new value together with an optional driver error; `κ` is the
abstract type of cursors. -/
structure DriverCollection (M ε κ : Type) where
  findOneDecode : Context → BVal → M → M × Option ε
  findOneAndUpdateDecode :
    Context → BVal → BVal → List FindOneAndUpdateOptions → M → M × Option ε
  insertOne : Context → M → Option ε
  find : Context → BVal → Except ε κ
  aggregate : Context → List BVal → Except ε κ
  cursorAll : Context → κ → List M → List M × Option ε

/-- Embeds `mon.go` `CollectionWrapper[A]`: the driver collection instance plus the
model name given at instantiation. -/
structure CollectionWrapper (M ε κ : Type) where
  I : DriverCollection M ε κ
  name : String

/-- Embeds `mon.go` `FindOne`: fresh 10s context (cancel deferred), driver
`FindOne(ctx, query).Decode(model)`; any driver error is replaced by
`errors.New("Cannot find document")`, success returns nil. -/
def CollectionWrapper.FindOne {M ε κ : Type} (c : CollectionWrapper M ε κ)
    (query : BVal) (model : M) : (M × Option (GoError ε)) × OpLog ε :=
  let ctx := GetContext
  match c.I.findOneDecode ctx query model with
  | (m, some _) =>
    ((m, some (GoError.errorsNew "Cannot find document")),
      ⟨ctx.timeoutSeconds, true, []⟩)
  | (m, none) => ((m, none), ⟨ctx.timeoutSeconds, true, []⟩)

/-- Embeds `mon.go` `FindOneById`: delegate to `FindOne` with the filter
`bson.M{"_id": ObjId(id)}`. -/
def CollectionWrapper.FindOneById {M ε κ : Type} (c : CollectionWrapper M ε κ)
    (id : String) (model : M) : (M × Option (GoError ε)) × OpLog ε :=
  c.FindOne (BVal.m [("_id", BVal.objectId (ObjId id))]) model

/-- Embeds `mon.go` `FindOneAndUpdate`: fresh 10s context (cancel deferred), driver
`FindOneAndUpdate(ctx, find, update).Decode(updated)` with no options; on a
driver error it prints the error and returns
`errors.New("Cannot update document")`, on success nil. -/
def CollectionWrapper.FindOneAndUpdate {M ε κ : Type}
    (c : CollectionWrapper M ε κ) (find update : BVal) (updated : M) :
    (M × Option (GoError ε)) × OpLog ε :=
  let ctx := GetContext
  match c.I.findOneAndUpdateDecode ctx find update [] updated with
  | (m, some e) =>
    ((m, some (GoError.errorsNew "Cannot update document")),
      ⟨ctx.timeoutSeconds, true, [e]⟩)
  | (m, none) => ((m, none), ⟨ctx.timeoutSeconds, true, []⟩)

/-- Embeds `mon.go` `FindByIdAndUpdate`: delegate to `FindOneAndUpdate` with the
filter `bson.M{"_id": ObjId(idHex)}`. -/
def CollectionWrapper.FindByIdAndUpdate {M ε κ : Type}
    (c : CollectionWrapper M ε κ) (idHex : String) (update : BVal)
    (updated : M) : (M × Option (GoError ε)) × OpLog ε :=
  c.FindOneAndUpdate (BVal.m [("_id", BVal.objectId (ObjId idHex))]) update
    updated

/-- Embeds `mon.go` `New`: fresh 10s context (cancel deferred), driver
`InsertOne(ctx, document)`; the driver error is returned unmodified. -/
def CollectionWrapper.New {M ε κ : Type} (c : CollectionWrapper M ε κ)
    (document : M) : Option (GoError ε) × OpLog ε :=
  let ctx := GetContext
  match c.I.insertOne ctx document with
  | some e => (some (GoError.driver e), ⟨ctx.timeoutSeconds, true, []⟩)
  | none => (none, ⟨ctx.timeoutSeconds, true, []⟩)

/-- Embeds `mon.go` `FindMany`: fresh 10s context (cancel deferred), driver
`Find(ctx, bson)` then `cursor.All(ctx, elem)`; either failure's error is
returned unmodified, success returns nil. -/
def CollectionWrapper.FindMany {M ε κ : Type} (c : CollectionWrapper M ε κ)
    (bson : BVal) (elem : List M) : (List M × Option (GoError ε)) × OpLog ε :=
  let ctx := GetContext
  match c.I.find ctx bson with
  | .error e => ((elem, some (GoError.driver e)), ⟨ctx.timeoutSeconds, true, []⟩)
  | .ok cursor =>
    match c.I.cursorAll ctx cursor elem with
    | (xs, some e) =>
      ((xs, some (GoError.driver e)), ⟨ctx.timeoutSeconds, true, []⟩)
    | (xs, none) => ((xs, none), ⟨ctx.timeoutSeconds, true, []⟩)

/-- Embeds `mon.go` `Populate`: the three field names describing one lookup. -/
structure Populate where
  LocalField : String
  ForeignModel : String
  As : String

/-- The two-stage pipeline `FindManyPopulate` builds:
`{$match: matchQuery}` then `{$lookup: {from, localField, foreignField:
"_id", as}}`, in the field order of the source. -/
def populatePipeline (matchQuery : BVal) (populate : Populate) : List BVal :=
  [BVal.d [("$match", matchQuery)],
   BVal.d [("$lookup", BVal.d
     [("from", BVal.str populate.ForeignModel),
      ("localField", BVal.str populate.LocalField),
      ("foreignField", BVal.str "_id"),
      ("as", BVal.str populate.As)])]]

/-- Embeds `mon.go` `FindManyPopulate`: fresh 10s context (cancel deferred), driver
`Aggregate(ctx, mongo.Pipeline{match, lookup})` then `cursor.All(ctx, elem)`;
an aggregate error is returned unmodified, a cursor error is logged
(`log.Println`) and returned unmodified, success returns nil. -/
def CollectionWrapper.FindManyPopulate {M ε κ : Type}
    (c : CollectionWrapper M ε κ) (matchQuery : BVal) (populate : Populate)
    (elem : List M) : (List M × Option (GoError ε)) × OpLog ε :=
  let ctx := GetContext
  match c.I.aggregate ctx (populatePipeline matchQuery populate) with
  | .error e => ((elem, some (GoError.driver e)), ⟨ctx.timeoutSeconds, true, []⟩)
  | .ok cursor =>
    match c.I.cursorAll ctx cursor elem with
    | (xs, some e) =>
      ((xs, some (GoError.driver e)), ⟨ctx.timeoutSeconds, true, [e]⟩)
    | (xs, none) => ((xs, none), ⟨ctx.timeoutSeconds, true, []⟩)

/-! ### `config.go`: connection state, collection resolution, index creation -/

/-- A Go panic observable from this package: dereferencing the nil client. -/
inductive GoPanic where
  | nilPointerDereference : GoPanic
deriving DecidableEq

/-- The package-level variables of `config.go`: `DB` (a client pointer, nil
until a successful connect) and `DatabaseName`. `Client` is the abstract
type of live driver clients. -/
structure GlobalState (Client : Type) where
  DB : Option Client
  DatabaseName : String

/-- Go zero values of the package-level variables: nil client pointer and
empty database name. -/
def initialState (Client : Type) : GlobalState Client := ⟨none, ""⟩

/-- Abstract interface to the external driver's client construction and
handshake calls used by `ConnectDB`. -/
structure MongoDriver (Client ε : Type) where
  newClient : String → Except ε Client
  connect : Client → Context → Option ε
  ping : Client → Context → Option ε

/-- Outcome of `ConnectDB`: `log.Fatal` terminates the process on any
failure; otherwise the live client is returned. -/
inductive ConnectOutcome (Client ε : Type) where
  | fatal : ε → ConnectOutcome Client ε
  | ok : Client → ConnectOutcome Client ε

/-- Embeds `config.go` `ConnectDB`: create the client, set `DatabaseName` (before
the error check, as in the source), then connect and ping under a 10s
context; any failure is fatal, success stores the client in `DB`. -/
def ConnectDB {Client ε : Type} (drv : MongoDriver Client ε)
    (g : GlobalState Client) (uri : String) (databaseName : String) :
    ConnectOutcome Client ε × GlobalState Client :=
  match drv.newClient uri with
  | .error e => (ConnectOutcome.fatal e, { g with DatabaseName := databaseName })
  | .ok client =>
    let g1 : GlobalState Client := { g with DatabaseName := databaseName }
    let ctx : Context := ⟨10⟩
    match drv.connect client ctx with
    | some e => (ConnectOutcome.fatal e, g1)
    | none =>
      match drv.ping client ctx with
      | some e => (ConnectOutcome.fatal e, g1)
      | none => (ConnectOutcome.ok client, { g1 with DB := some client })

/-- A resolved collection handle: the database name and collection name it
was resolved against. -/
structure CollectionRef where
  dbName : String
  collName : String
deriving DecidableEq

/-- Embeds `config.go` `GetCollection`: `DB.Database(DatabaseName).Collection(name)`.
With a nil `DB` this dereferences a nil pointer and panics; otherwise it
yields the named collection of the active database. -/
def GetCollection {Client : Type} (g : GlobalState Client)
    (collectionName : String) : Except GoPanic CollectionRef :=
  match g.DB with
  | none => .error GoPanic.nilPointerDereference
  | some _ => .ok ⟨g.DatabaseName, collectionName⟩

/-- The metadata `NewCollectionWrapper` stores: the resolved collection
(dereferenced) and the name given at instantiation. -/
structure WrapperMeta where
  I : CollectionRef
  name : String
deriving DecidableEq

/-- Embeds `mon.go` `NewCollectionWrapper`: dereference `GetCollection(name)` and
store it with the name; it inherits `GetCollection`'s nil-client panic. -/
def NewCollectionWrapper {Client : Type} (g : GlobalState Client)
    (name : String) : Except GoPanic WrapperMeta :=
  match GetCollection g name with
  | .error p => .error p
  | .ok coll => .ok ⟨coll, name⟩

/-- The `mongo.IndexModel` as `CreateIndex` builds it: the key document
(`bson.M{field: 1}` as a key/direction list) and the unique/sparse options. -/
structure IndexModel where
  keys : List (String × Int)
  unique : Bool
  sparse : Bool
deriving DecidableEq

/-- Abstract interface to the driver's `Indexes().CreateOne` on the named
collection of the active database (the returned index name is discarded by
the source, so only the optional error is modelled). -/
structure IndexDriver (ε : Type) where
  createOne : Context → String → IndexModel → Option ε

/-- Embeds `config.go` `CreateIndex`: build the single ascending-field index model,
allocate a 5s context (cancel deferred), call `CreateOne` on the named
collection; on error print it and return false, otherwise return true. -/
def CreateIndex {ε : Type} (drv : IndexDriver ε) (collectionName : String)
    (field : String) (unique : Bool) (sparse : Bool) : Bool × OpLog ε :=
  let mod : IndexModel := ⟨[(field, 1)], unique, sparse⟩
  let ctx : Context := ⟨5⟩
  match drv.createOne ctx collectionName mod with
  | some e => (false, ⟨ctx.timeoutSeconds, true, [e]⟩)
  | none => (true, ⟨ctx.timeoutSeconds, true, []⟩)

/-! ### A reference model of the driver's find-and-update semantics

The external driver documents that `FindOneAndUpdate` returns the document
as it was **before** the update unless the `ReturnDocument: After` option is
set.  `ModelStore` is a reference model of one collection honouring exactly
that contract, used to settle what the wrapper's option-less call decodes. -/

/-- A reference model of one driver collection: its documents in order, a
filter-match predicate and an update application function (both abstract —
their internals belong to the external driver). -/
structure ModelStore (M : Type) where
  docs : List M
  matchesDoc : BVal → M → Bool
  applyUpdate : BVal → M → M

/-- Driver option merging for the return-document knob: the last set value
wins; when never set, the driver default is `before`. -/
def effectiveReturnDocument (opts : List FindOneAndUpdateOptions) :
    ReturnDocument :=
  opts.foldl (fun acc o => o.returnDocument.getD acc) ReturnDocument.before

/-- The driver's `FindOneAndUpdate` against the reference model: find the
first document matching the filter; return it as it was before the update,
or after, according to the effective return-document option; no match is the
driver's no-documents error. -/
def modelFindOneAndUpdate {M : Type} (st : ModelStore M) (filter update : BVal)
    (opts : List FindOneAndUpdateOptions) : Option M :=
  match st.docs.find? (st.matchesDoc filter) with
  | none => none
  | some d =>
    match effectiveReturnDocument opts with
    | ReturnDocument.before => some d
    | ReturnDocument.after => some (st.applyUpdate update d)

/-- The driver's no-documents / decode error values for the reference model. -/
inductive ModelErr where
  | noDocuments : ModelErr
deriving DecidableEq

/-- The `DriverCollection` a reference-model store presents to the wrapper:
`findOneAndUpdateDecode` follows `modelFindOneAndUpdate` (decoding the
returned document into the output), the remaining methods are unreachable
from the find-and-update claims and uniformly report no documents. -/
def ModelStore.toDriver {M : Type} (st : ModelStore M) :
    DriverCollection M ModelErr Unit where
  findOneDecode := fun _ _ m => (m, some ModelErr.noDocuments)
  findOneAndUpdateDecode := fun _ filter update opts m =>
    match modelFindOneAndUpdate st filter update opts with
    | some d => (d, none)
    | none => (m, some ModelErr.noDocuments)
  insertOne := fun _ _ => some ModelErr.noDocuments
  find := fun _ _ => .error ModelErr.noDocuments
  aggregate := fun _ _ => .error ModelErr.noDocuments
  cursorAll := fun _ _ elem => (elem, some ModelErr.noDocuments)

/-- A wrapper over the reference-model store, as `NewCollectionWrapper`
would build it for that collection. -/
def ModelStore.toWrapper {M : Type} (st : ModelStore M) (name : String) :
    CollectionWrapper M ModelErr Unit :=
  ⟨st.toDriver, name⟩

/-! ### Helper lemmas about ObjectID parsing -/

/-- Validity of an ObjectID hex string as the claims use it: exactly 24
characters, all hex digits (this is precisely when `ObjectIDFromHex`
succeeds, see `objectIDFromHex_ok_iff`). -/
def isValidObjectIDHex (s : String) : Bool :=
  s.length == 24 && s.toList.all (fun c => (hexDigitVal c).isSome)

theorem hexDecodePairs_isSome_iff :
    ∀ l : List Char, (hexDecodePairs l).isSome ↔
      (l.length % 2 = 0 ∧ ∀ c ∈ l, (hexDigitVal c).isSome)
  | [] => by simp [hexDecodePairs]
  | [c] => by simp [hexDecodePairs]
  | c1 :: c2 :: cs => by
    have ih := hexDecodePairs_isSome_iff cs
    have hl : (c1 :: c2 :: cs).length % 2 = cs.length % 2 := by
      simp only [List.length_cons]
      omega
    rw [hl]
    cases h1 : hexDigitVal c1 <;> cases h2 : hexDigitVal c2 <;>
      cases h3 : hexDecodePairs cs <;>
      simp_all [hexDecodePairs]

theorem objectIDFromHex_ok_iff (s : String) :
    (ObjectIDFromHex s).2 = none ↔ isValidObjectIDHex s = true := by
  have htl : s.data.length = s.length := rfl
  by_cases hl : s.length = 24
  · rcases h3 : hexDecodePairs s.data with _ | bs
    · have hns : ¬ (hexDecodePairs s.data).isSome = true := by simp [h3]
      rw [hexDecodePairs_isSome_iff] at hns
      simp only [ObjectIDFromHex, isValidObjectIDHex, hl, h3]
      simp only [htl, hl] at hns
      simp_all [List.all_eq_true, String.toList]
    · have hs : (hexDecodePairs s.data).isSome = true := by simp [h3]
      rw [hexDecodePairs_isSome_iff] at hs
      simp only [ObjectIDFromHex, isValidObjectIDHex, hl, h3]
      simp_all [List.all_eq_true, String.toList]
  · simp [ObjectIDFromHex, isValidObjectIDHex, hl]

theorem objectIDFromHex_fst_of_err (s : String)
    (h : (ObjectIDFromHex s).2 ≠ none) : (ObjectIDFromHex s).1 = NilObjectID := by
  by_cases hl : s.length = 24
  · rcases h3 : hexDecodePairs s.data with _ | bs
    · simp [ObjectIDFromHex, hl, h3]
    · exact absurd (by simp [ObjectIDFromHex, hl, h3]) h
  · simp [ObjectIDFromHex, hl]

/-- Shared helper: an input failing the 24-character-hex validity test makes
`ObjId` return the zero ObjectID. -/
theorem objId_eq_nilObjectID (s : String) (h : isValidObjectIDHex s = false) :
    ObjId s = NilObjectID := by
  have herr : (ObjectIDFromHex s).2 ≠ none := by
    intro hn
    rw [objectIDFromHex_ok_iff] at hn
    simp [hn] at h
  exact objectIDFromHex_fst_of_err s herr

/-- A trivial concrete driver collection over `Unit`, used to instantiate
universally quantified statements at a concrete input. -/
def unitWrapper : CollectionWrapper Unit Unit Unit where
  I :=
    { findOneDecode := fun _ _ m => (m, none)
      findOneAndUpdateDecode := fun _ _ _ _ m => (m, none)
      insertOne := fun _ _ => none
      find := fun _ _ => .ok ()
      aggregate := fun _ _ => .ok ()
      cursorAll := fun _ _ elem => (elem, none) }
  name := "users"

/-! ### Claim theorems -/

/-- C1: for every id string and output value, `FindOneById(id, out)` behaves
identically to `FindOne({_id: ObjId(id)}, out)` — same error, same decoded
document, same effects — and a malformed id makes the filter carry the
zero-value ObjectID. -/
theorem findOneById_eq_findOne {M ε κ : Type} (c : CollectionWrapper M ε κ)
    (id : String) (model : M) :
    c.FindOneById id model
      = c.FindOne (BVal.m [("_id", BVal.objectId (ObjId id))]) model ∧
    (isValidObjectIDHex id = false → ObjId id = NilObjectID) :=
  ⟨rfl, objId_eq_nilObjectID id⟩

/-- Witness for C1 at the concrete wrapper over `Unit` and the malformed
id `"zz"`. -/
theorem findOneById_eq_findOne_witness :
    unitWrapper.FindOneById "zz" ()
        = unitWrapper.FindOne (BVal.m [("_id", BVal.objectId (ObjId "zz"))]) ()
      ∧ ObjId "zz" = NilObjectID :=
  ⟨(findOneById_eq_findOne unitWrapper "zz" ()).1,
    (findOneById_eq_findOne unitWrapper "zz" ()).2 (by decide)⟩

/-- C2: for every id string, update document and output value,
`FindByIdAndUpdate(id, u, out)` behaves identically to
`FindOneAndUpdate({_id: ObjId(id)}, u, out)`. -/
theorem findByIdAndUpdate_eq_findOneAndUpdate {M ε κ : Type}
    (c : CollectionWrapper M ε κ) (idHex : String) (update : BVal)
    (updated : M) :
    c.FindByIdAndUpdate idHex update updated
      = c.FindOneAndUpdate (BVal.m [("_id", BVal.objectId (ObjId idHex))])
          update updated :=
  rfl

/-- C3: every input string that is not a valid 24-character hex ObjectID
makes `ObjId` return the zero-value ObjectID; the parse error is discarded
(`ObjId` always returns the parse's first component and no error). -/
theorem objId_invalid_returns_nil (s : String)
    (h : isValidObjectIDHex s = false) :
    ObjId s = NilObjectID
      ∧ (ObjectIDFromHex s).2.isSome
      ∧ ObjId s = (ObjectIDFromHex s).1 := by
  have herr : (ObjectIDFromHex s).2 ≠ none := by
    intro hn
    rw [objectIDFromHex_ok_iff] at hn
    simp [hn] at h
  refine ⟨objId_eq_nilObjectID s h, ?_, rfl⟩
  cases ho : (ObjectIDFromHex s).2
  · exact absurd ho herr
  · simp

/-- Witness for C3 at the malformed inputs `"nothex"` (wrong length) and a
24-character non-hex string. -/
theorem objId_invalid_returns_nil_witness :
    (isValidObjectIDHex "nothex" = false ∧ ObjId "nothex" = NilObjectID)
      ∧ (isValidObjectIDHex "zzzzzzzzzzzzzzzzzzzzzzzz" = false
          ∧ ObjId "zzzzzzzzzzzzzzzzzzzzzzzz" = NilObjectID) :=
  ⟨⟨by decide, (objId_invalid_returns_nil "nothex" (by decide)).1⟩,
    ⟨by decide,
      (objId_invalid_returns_nil "zzzzzzzzzzzzzzzzzzzzzzzz" (by decide)).1⟩⟩

/-- C4: `FindOne` and `FindOneAndUpdate` return nil exactly when the driver
call succeeds, and on any driver failure return the fixed generic errors
`errors.New("Cannot find document")` / `errors.New("Cannot update
document")`, which are independent of the driver error and are not driver
error values. -/
theorem singleDoc_generic_error {M ε κ : Type} (c : CollectionWrapper M ε κ)
    (q u : BVal) (model updated : M) :
    ((c.FindOne q model).1.2
        = if (c.I.findOneDecode GetContext q model).2.isSome
          then some (GoError.errorsNew "Cannot find document") else none)
    ∧ ((c.FindOneAndUpdate q u updated).1.2
        = if (c.I.findOneAndUpdateDecode GetContext q u [] updated).2.isSome
          then some (GoError.errorsNew "Cannot update document") else none)
    ∧ (GoError.errorsNew "Cannot find document" : GoError ε).isDriver = false
    ∧ (GoError.errorsNew "Cannot update document" : GoError ε).isDriver
        = false := by
  refine ⟨?_, ?_, rfl, rfl⟩
  · rcases h : c.I.findOneDecode GetContext q model with ⟨m, e⟩
    cases e <;> simp [CollectionWrapper.FindOne, h]
  · rcases h : c.I.findOneAndUpdateDecode GetContext q u [] updated with ⟨m, e⟩
    cases e <;> simp [CollectionWrapper.FindOneAndUpdate, h]

/-- C5: `New`, `FindMany` and `FindManyPopulate` return the underlying
driver error value unmodified when the driver call or the cursor
materialization fails, and nil when everything succeeds. -/
theorem multiDoc_error_passthrough {M ε κ : Type} (c : CollectionWrapper M ε κ)
    (doc : M) (q : BVal) (mq : BVal) (p : Populate) (elem elem2 : List M) :
    (c.New doc).1 = Option.map GoError.driver (c.I.insertOne GetContext doc)
    ∧ ((c.FindMany q elem).1.2
        = match c.I.find GetContext q with
          | .error e => some (GoError.driver e)
          | .ok cursor =>
            Option.map GoError.driver (c.I.cursorAll GetContext cursor elem).2)
    ∧ ((c.FindManyPopulate mq p elem2).1.2
        = match c.I.aggregate GetContext (populatePipeline mq p) with
          | .error e => some (GoError.driver e)
          | .ok cursor =>
            Option.map GoError.driver
              (c.I.cursorAll GetContext cursor elem2).2) := by
  refine ⟨?_, ?_, ?_⟩
  · cases h : c.I.insertOne GetContext doc <;> simp [CollectionWrapper.New, h]
  · cases h : c.I.find GetContext q with
    | error e => simp [CollectionWrapper.FindMany, h]
    | ok cursor =>
      rcases h2 : c.I.cursorAll GetContext cursor elem with ⟨xs, e⟩
      cases e <;> simp [CollectionWrapper.FindMany, h, h2]
  · cases h : c.I.aggregate GetContext (populatePipeline mq p) with
    | error e => simp [CollectionWrapper.FindManyPopulate, h]
    | ok cursor =>
      rcases h2 : c.I.cursorAll GetContext cursor elem2 with ⟨xs, e⟩
      cases e <;> simp [CollectionWrapper.FindManyPopulate, h, h2]

/-- C6: `FindManyPopulate` sends the driver an aggregation pipeline of
exactly two stages in order — `{$match: matchQuery}` with the match query
verbatim, then one `{$lookup: {from: ForeignModel, localField: LocalField,
foreignField: "_id", as: As}}` — and nothing else; the rest of the
operation only consumes the resulting cursor. -/
theorem findManyPopulate_two_stage {M ε κ : Type} (c : CollectionWrapper M ε κ)
    (matchQuery : BVal) (p : Populate) (elem : List M) :
    c.FindManyPopulate matchQuery p elem
      = (match c.I.aggregate GetContext
            [BVal.d [("$match", matchQuery)],
             BVal.d [("$lookup", BVal.d
               [("from", BVal.str p.ForeignModel),
                ("localField", BVal.str p.LocalField),
                ("foreignField", BVal.str "_id"),
                ("as", BVal.str p.As)])]] with
         | .error e =>
           ((elem, some (GoError.driver e)), ⟨10, true, []⟩)
         | .ok cursor =>
           match c.I.cursorAll GetContext cursor elem with
           | (xs, some e) => ((xs, some (GoError.driver e)), ⟨10, true, [e]⟩)
           | (xs, none) => ((xs, none), ⟨10, true, []⟩)) :=
  rfl

/-- C7: `CreateIndex` asks the driver for exactly one index, keyed by the
single given field ascending (value 1) with the given unique and sparse
flags, under a 5-second context; it returns false and prints the driver
error on failure, true on success, and never returns an error value. -/
theorem createIndex_single_ascending {ε : Type} (d : IndexDriver ε)
    (collectionName field : String) (unique sparse : Bool) :
    CreateIndex d collectionName field unique sparse
      = (match d.createOne ⟨5⟩ collectionName ⟨[(field, 1)], unique, sparse⟩ with
         | some e => (false, ⟨5, true, [e]⟩)
         | none => (true, ⟨5, true, []⟩)) :=
  rfl

/-! ### C8 helpers: per-operation effect logs -/

theorem findOne_log {M ε κ : Type} (c : CollectionWrapper M ε κ) (q : BVal)
    (model : M) :
    (c.FindOne q model).2.ctxTimeout = 10
      ∧ (c.FindOne q model).2.cancelled = true := by
  rcases h : c.I.findOneDecode GetContext q model with ⟨m, e⟩
  cases e <;> simp [CollectionWrapper.FindOne, h] <;> rfl

theorem findOneAndUpdate_log {M ε κ : Type} (c : CollectionWrapper M ε κ)
    (q u : BVal) (updated : M) :
    (c.FindOneAndUpdate q u updated).2.ctxTimeout = 10
      ∧ (c.FindOneAndUpdate q u updated).2.cancelled = true := by
  rcases h : c.I.findOneAndUpdateDecode GetContext q u [] updated with ⟨m, e⟩
  cases e <;> simp [CollectionWrapper.FindOneAndUpdate, h] <;> rfl

theorem new_log {M ε κ : Type} (c : CollectionWrapper M ε κ) (doc : M) :
    (c.New doc).2.ctxTimeout = 10 ∧ (c.New doc).2.cancelled = true := by
  cases h : c.I.insertOne GetContext doc <;> simp [CollectionWrapper.New, h]
    <;> rfl

theorem findMany_log {M ε κ : Type} (c : CollectionWrapper M ε κ) (q : BVal)
    (elem : List M) :
    (c.FindMany q elem).2.ctxTimeout = 10
      ∧ (c.FindMany q elem).2.cancelled = true := by
  cases h : c.I.find GetContext q with
  | error e => (simp [CollectionWrapper.FindMany, h]; rfl)
  | ok cursor =>
    rcases h2 : c.I.cursorAll GetContext cursor elem with ⟨xs, e⟩
    cases e <;> simp [CollectionWrapper.FindMany, h, h2] <;> rfl

theorem findManyPopulate_log {M ε κ : Type} (c : CollectionWrapper M ε κ)
    (mq : BVal) (p : Populate) (elem : List M) :
    (c.FindManyPopulate mq p elem).2.ctxTimeout = 10
      ∧ (c.FindManyPopulate mq p elem).2.cancelled = true := by
  cases h : c.I.aggregate GetContext (populatePipeline mq p) with
  | error e => (simp [CollectionWrapper.FindManyPopulate, h]; rfl)
  | ok cursor =>
    rcases h2 : c.I.cursorAll GetContext cursor elem with ⟨xs, e⟩
    cases e <;> simp [CollectionWrapper.FindManyPopulate, h, h2] <;> rfl

theorem createIndex_log {ε : Type} (d : IndexDriver ε) (name field : String)
    (unique sparse : Bool) :
    (CreateIndex d name field unique sparse).2.ctxTimeout = 5
      ∧ (CreateIndex d name field unique sparse).2.cancelled = true := by
  cases h : d.createOne ⟨5⟩ name ⟨[(field, 1)], unique, sparse⟩ <;>
    simp [CreateIndex, h]

/-- C8: every wrapper operation allocates its own context with a 10-second
timeout (`GetContext`) and cancels it on every return path, while
`CreateIndex` uses a 5-second timeout; none of the operations takes a
caller-supplied context or timeout. -/
theorem context_discipline {M ε κ ε2 : Type} (c : CollectionWrapper M ε κ)
    (d : IndexDriver ε2) (q u mq : BVal) (id : String)
    (model updated doc : M) (p : Populate) (elem elem2 : List M)
    (name field : String) (unique sparse : Bool) :
    GetContext = ⟨10⟩
    ∧ ((c.FindOne q model).2.ctxTimeout = 10
        ∧ (c.FindOne q model).2.cancelled = true)
    ∧ ((c.FindOneById id model).2.ctxTimeout = 10
        ∧ (c.FindOneById id model).2.cancelled = true)
    ∧ ((c.FindOneAndUpdate q u updated).2.ctxTimeout = 10
        ∧ (c.FindOneAndUpdate q u updated).2.cancelled = true)
    ∧ ((c.FindByIdAndUpdate id u updated).2.ctxTimeout = 10
        ∧ (c.FindByIdAndUpdate id u updated).2.cancelled = true)
    ∧ ((c.New doc).2.ctxTimeout = 10 ∧ (c.New doc).2.cancelled = true)
    ∧ ((c.FindMany q elem).2.ctxTimeout = 10
        ∧ (c.FindMany q elem).2.cancelled = true)
    ∧ ((c.FindManyPopulate mq p elem2).2.ctxTimeout = 10
        ∧ (c.FindManyPopulate mq p elem2).2.cancelled = true)
    ∧ ((CreateIndex d name field unique sparse).2.ctxTimeout = 5
        ∧ (CreateIndex d name field unique sparse).2.cancelled = true) :=
  ⟨rfl, findOne_log c q model,
    findOne_log c (BVal.m [("_id", BVal.objectId (ObjId id))]) model,
    findOneAndUpdate_log c q u updated,
    findOneAndUpdate_log c (BVal.m [("_id", BVal.objectId (ObjId id))]) u
      updated,
    new_log c doc, findMany_log c q elem, findManyPopulate_log c mq p elem2,
    createIndex_log d name field unique sparse⟩

/-- C9: with the zero-value globals (no successful `ConnectDB`),
`GetCollection` — and hence `NewCollectionWrapper` — dereferences the nil
client and panics; a fatal `ConnectDB` leaves the client handle unchanged,
and only the successful outcome stores a client in `DB`. -/
theorem getCollection_requires_connect {Client ε : Type}
    (drv : MongoDriver Client ε) (g : GlobalState Client)
    (uri databaseName name : String) :
    GetCollection (initialState Client) name
        = .error GoPanic.nilPointerDereference
    ∧ NewCollectionWrapper (initialState Client) name
        = .error GoPanic.nilPointerDereference
    ∧ (g.DB = none →
        GetCollection g name = .error GoPanic.nilPointerDereference)
    ∧ (∀ e, (ConnectDB drv g uri databaseName).1 = ConnectOutcome.fatal e →
        ((ConnectDB drv g uri databaseName).2).DB = g.DB)
    ∧ (∀ client,
        (ConnectDB drv g uri databaseName).1 = ConnectOutcome.ok client →
        ((ConnectDB drv g uri databaseName).2).DB = some client) := by
  refine ⟨rfl, rfl, ?_, ?_, ?_⟩
  · intro h
    simp [GetCollection, h]
  · intro e h
    cases hn : drv.newClient uri with
    | error e2 => simp [ConnectDB, hn]
    | ok client =>
      cases hc : drv.connect client ⟨10⟩ with
      | some e2 => simp [ConnectDB, hn, hc]
      | none =>
        cases hp : drv.ping client ⟨10⟩ with
        | some e2 => simp [ConnectDB, hn, hc, hp]
        | none => simp [ConnectDB, hn, hc, hp] at h
  · intro client h
    cases hn : drv.newClient uri with
    | error e2 => simp [ConnectDB, hn] at h
    | ok client2 =>
      cases hc : drv.connect client2 ⟨10⟩ with
      | some e2 => simp [ConnectDB, hn, hc] at h
      | none =>
        cases hp : drv.ping client2 ⟨10⟩ with
        | some e2 => simp [ConnectDB, hn, hc, hp] at h
        | none =>
          simp [ConnectDB, hn, hc, hp] at h ⊢
          exact h

/-- A driver whose handshake always succeeds, for instantiating the
connection claims. -/
def unitMongoDriver : MongoDriver Unit Unit where
  newClient := fun _ => .ok ()
  connect := fun _ _ => none
  ping := fun _ _ => none

/-- A driver whose client construction always fails, for instantiating the
fatal connection path. -/
def failMongoDriver : MongoDriver Unit Unit where
  newClient := fun _ => .error ()
  connect := fun _ _ => none
  ping := fun _ _ => none

/-- Witness for C9: the nil-client panic before any connect, the unchanged
handle on a fatal connect, and the stored handle on a successful one. -/
theorem getCollection_requires_connect_witness :
    GetCollection (initialState Unit) "users"
        = .error GoPanic.nilPointerDereference
    ∧ GetCollection (⟨none, "prev⟩db"⟩ : GlobalState Unit) "users"
        = .error GoPanic.nilPointerDereference
    ∧ ((ConnectDB failMongoDriver (initialState Unit) "mongodb://x" "db").2).DB
        = (initialState Unit).DB
    ∧ ((ConnectDB unitMongoDriver (initialState Unit) "mongodb://x" "db").2).DB
        = some () := by
  have h1 := getCollection_requires_connect unitMongoDriver
    (initialState Unit) "mongodb://x" "db" "users"
  have h2 := getCollection_requires_connect failMongoDriver
    (⟨none, "prev⟩db"⟩ : GlobalState Unit) "mongodb://x" "db" "users"
  have h3 := getCollection_requires_connect failMongoDriver
    (initialState Unit) "mongodb://x" "db" "users"
  exact ⟨h1.1, h2.2.2.1 rfl, h3.2.2.2.1 () rfl, h1.2.2.2.2 () rfl⟩

/-- C10: `FindOneAndUpdate` passes no options, so against a driver honouring
the documented default return-document semantics it decodes the matched
document as it was before the update, not the post-update document (which
only the explicit `After` option would select); `FindByIdAndUpdate`
delegates to it. -/
theorem findOneAndUpdate_decodes_pre_update {M : Type} (st : ModelStore M)
    (name idHex : String) (find update : BVal) (d init init2 : M)
    (h : st.docs.find? (st.matchesDoc find) = some d) :
    ((st.toWrapper name).FindOneAndUpdate find update init).1 = (d, none)
    ∧ modelFindOneAndUpdate st find update [⟨some ReturnDocument.after⟩]
        = some (st.applyUpdate update d)
    ∧ (st.toWrapper name).FindByIdAndUpdate idHex update init2
        = (st.toWrapper name).FindOneAndUpdate
            (BVal.m [("_id", BVal.objectId (ObjId idHex))]) update init2 := by
  refine ⟨?_, ?_, rfl⟩
  · simp [CollectionWrapper.FindOneAndUpdate, ModelStore.toWrapper,
      ModelStore.toDriver, modelFindOneAndUpdate, effectiveReturnDocument, h]
  · simp [modelFindOneAndUpdate, effectiveReturnDocument, h]

/-- A concrete reference store over naturals: two documents, every filter
matches, updates increment. -/
def natStore : ModelStore Nat := ⟨[5, 7], fun _ _ => true, fun _ n => n + 1⟩

/-- Witness for C10 at the concrete store: the wrapper decodes the matched
document 5 unchanged, while the `After` option would have produced 6. -/
theorem findOneAndUpdate_decodes_pre_update_witness :
    ((natStore.toWrapper "users").FindOneAndUpdate (BVal.str "q")
        (BVal.str "u") 0).1 = (5, none)
    ∧ modelFindOneAndUpdate natStore (BVal.str "q") (BVal.str "u")
        [⟨some ReturnDocument.after⟩] = some 6 := by
  have h := findOneAndUpdate_decodes_pre_update natStore "users" "id"
    (BVal.str "q") (BVal.str "u") 5 0 0 rfl
  exact ⟨h.1, h.2.1⟩

end Mongoose
